import Mathlib

/-!
Shallow embedding of the `rust-datetime/datetime` civil-calendar and
timezone engine, together with proofs about it.

Rust machine integers (`i64`, `i32`, `i16`, `i8`) are modelled as `Int`;
Rust `/` and `%` (truncating division) are modelled as `Int.tdiv` and
`Int.tmod`.  Fallible constructors (`Result<_, Error>`) are modelled as
`Option` with `none` standing for `Err(OutOfRange)`; a Rust `assert!` or
`unwrap` failure inside an otherwise total function is modelled as `none`
when the function is fallible.  Sources:

 * `src/duration.rs`, `src/instant.rs`
 * `src/cal/datetime.rs`
 * `src/cal/offset.rs`, `src/util.rs`
 * `src/cal/zone.rs`
-/

/-- `util.rs`: `RangeExt::is_within`, for the range `lo..hi`:
`*self >= range.start && *self < range.end`. -/
def is_within (x lo hi : Int) : Bool :=
  decide (lo ≤ x) && decide (x < hi)

/-- `cal/datetime.rs`: `split_cycles` — truncating division plus a fix-up
making the remainder non-negative. -/
def split_cycles (number_of_periods cycle_length : Int) : Int × Int :=
  let cycles := number_of_periods.tdiv cycle_length
  let remainder := number_of_periods.tmod cycle_length
  if remainder < 0 then (cycles - 1, remainder + cycle_length)
  else (cycles, remainder)

/-- `cal/datetime.rs`: `DAYS_IN_4Y`. -/
def DAYS_IN_4Y : Int := 365 * 4 + 1

/-- `cal/datetime.rs`: `DAYS_IN_100Y`. -/
def DAYS_IN_100Y : Int := 365 * 100 + 24

/-- `cal/datetime.rs`: `DAYS_IN_400Y`. -/
def DAYS_IN_400Y : Int := 365 * 400 + 97

/-- `cal/datetime.rs`: `SECONDS_IN_DAY`. -/
def SECONDS_IN_DAY : Int := 86400

/-- `cal/datetime.rs`: `EPOCH_DIFFERENCE` — days between 1 January 1970
and 1 March 2000. -/
def EPOCH_DIFFERENCE : Int := 30 * 365 + 7 + 31 + 29

/-- `cal/datetime.rs`: `TIME_TRIANGLE` — days elapsed at the end of each
month starting from March, going backwards from January. -/
def TIME_TRIANGLE : List Int :=
  [31 + 30 + 31 + 30 + 31 + 31 + 30 + 31 + 30 + 31 + 31,
   31 + 30 + 31 + 30 + 31 + 31 + 30 + 31 + 30 + 31,
   31 + 30 + 31 + 30 + 31 + 31 + 30 + 31 + 30,
   31 + 30 + 31 + 30 + 31 + 31 + 30 + 31,
   31 + 30 + 31 + 30 + 31 + 31 + 30,
   31 + 30 + 31 + 30 + 31 + 31,
   31 + 30 + 31 + 30 + 31,
   31 + 30 + 31 + 30,
   31 + 30 + 31,
   31 + 30,
   31]

/-- `cal/datetime.rs`: `enum Month`, with January = 1 through
December = 12. -/
inductive Month where
  | january | february | march | april | may | june
  | july | august | september | october | november | december
deriving DecidableEq, Repr

/-- The discriminant of the Rust `Month` enum (`January = 1`, …,
`December = 12`); also the order used by the derived `PartialOrd`. -/
def Month.toOne : Month → Int
  | .january => 1  | .february => 2  | .march => 3
  | .april => 4    | .may => 5       | .june => 6
  | .july => 7     | .august => 8    | .september => 9
  | .october => 10 | .november => 11 | .december => 12

/-- `cal/datetime.rs`: `Month::days_in_month`. -/
def Month.days_in_month (m : Month) (leap_year : Bool) : Int :=
  match m with
  | .january => 31   | .february => if leap_year then 29 else 28
  | .march => 31     | .april => 30
  | .may => 31       | .june => 30
  | .july => 31      | .august => 31
  | .september => 30 | .october => 31
  | .november => 30  | .december => 31

/-- `cal/datetime.rs`: `Month::days_before_start`. -/
def Month.days_before_start (m : Month) : Int :=
  match m with
  | .january => 0    | .february => 31  | .march => 59
  | .april => 90     | .may => 120      | .june => 151
  | .july => 181     | .august => 212   | .september => 243
  | .october => 273  | .november => 304 | .december => 334

/-- `cal/datetime.rs`: `Month::from_zero`. -/
def Month.from_zero (month : Int) : Option Month :=
  match month with
  | 0 => some .january | 1 => some .february  | 2 => some .march
  | 3 => some .april   | 4 => some .may       | 5 => some .june
  | 6 => some .july    | 7 => some .august    | 8 => some .september
  | 9 => some .october | 10 => some .november | 11 => some .december
  | _ => none

/-- `cal/datetime.rs`: `enum Weekday`, Sunday = 0 through Saturday = 6. -/
inductive Weekday where
  | sunday | monday | tuesday | wednesday | thursday | friday | saturday
deriving DecidableEq, Repr

/-- `cal/datetime.rs`: `Weekday::from_zero`. -/
def Weekday.from_zero (weekday : Int) : Option Weekday :=
  match weekday with
  | 0 => some .sunday   | 1 => some .monday | 2 => some .tuesday
  | 3 => some .wednesday | 4 => some .thursday | 5 => some .friday
  | 6 => some .saturday | _ => none

/-- `cal/datetime.rs`: `days_to_weekday` — 1 March 2000 was a Wednesday,
so add 3 and reduce mod 7, wrapping negatives forward.  The source
`unwrap`s the `from_zero` result; the argument is in `[0,7)` by
construction, so the `.getD .sunday` default is unreachable. -/
def days_to_weekday (days : Int) : Weekday :=
  let weekday := (days + 3).tmod 7
  (Weekday.from_zero (if weekday < 0 then weekday + 7 else weekday)).getD .sunday

/-- `cal/datetime.rs`: `struct YMD` — an unchecked (possibly invalid)
year/month/day triple. -/
structure YMD where
  year : Int
  month : Month
  day : Int
deriving DecidableEq, Repr

/-- `cal/datetime.rs`: `YMD::leap_year_calculations` — returns the number
of leap years elapsed since 2000 before this date, and whether the year
itself is a leap year. -/
def YMD.leap_year_calculations (self : YMD) : Int × Bool :=
  let year := self.year - 2000
  let p := split_cycles year 400
  let num_400y_cycles := p.1
  let remainder := p.2
  let currently_leap_year : Bool :=
    decide (remainder = 0) ||
      (decide (remainder.tmod 100 ≠ 0) && decide (remainder.tmod 4 = 0))
  let num_100y_cycles := remainder.tdiv 100
  let remainder := remainder - num_100y_cycles * 100
  let leap_years_elapsed := remainder.tdiv 4
      + 97 * num_400y_cycles
      + 24 * num_100y_cycles
      - (if currently_leap_year then 1 else 0)
  (leap_years_elapsed, currently_leap_year)

/-- `cal/datetime.rs`: `YMD::is_valid`. -/
def YMD.is_valid (self : YMD) (is_leap_year : Bool) : Bool :=
  decide (1 ≤ self.day) && decide (self.day ≤ self.month.days_in_month is_leap_year)

/-- `cal/datetime.rs`: `YMD::to_days_since_epoch` — days elapsed since
1 January 1970, or `none` (`Err(OutOfRange)`) for an invalid date. -/
def YMD.to_days_since_epoch (self : YMD) : Option Int :=
  let years := self.year - 2000
  let q := self.leap_year_calculations
  let leap_days_elapsed := q.1
  let is_leap_year := q.2
  if ¬ (self.is_valid is_leap_year) then none
  else some (years * 365
      + 10958
      + leap_days_elapsed
      + self.month.days_before_start
      + (if is_leap_year && decide (3 ≤ self.month.toOne) then 1 else 0)
      + (self.day - 1))

/-- `cal/datetime.rs`: `struct LocalDate`. -/
structure LocalDate where
  ymd : YMD
  yearday : Int
  weekday : Weekday
deriving DecidableEq, Repr

/-- `cal/datetime.rs`: `LocalDate::from_days_since_epoch`, where the
argument counts days since 1 March 2000.  The source `unwrap`s the
`Month::from_zero` result; the month number is in range by the check just
above it, so the `.getD .january` default is unreachable. -/
def LocalDate.from_days_since_epoch (days : Int) : LocalDate :=
  let p := split_cycles days DAYS_IN_400Y
  let num_400y_cycles := p.1
  let remainder := p.2
  let num_100y_cycles := remainder.tdiv DAYS_IN_100Y
  let remainder := remainder - num_100y_cycles * DAYS_IN_100Y
  let num_4y_cycles := remainder.tdiv DAYS_IN_4Y
  let remainder := remainder - num_4y_cycles * DAYS_IN_4Y
  let years := remainder.tdiv 365
  let remainder := remainder - years * 365
  let days_this_year : Int :=
    if years = 0 ∧ ¬ (num_4y_cycles = 0 ∧ num_100y_cycles ≠ 0) then 366 else 365
  let day_of_year := remainder + days_this_year - 306
  let day_of_year :=
    if day_of_year ≥ days_this_year then day_of_year - days_this_year else day_of_year
  let years := years + 4 * num_4y_cycles + 100 * num_100y_cycles + 400 * num_400y_cycles
  let result := TIME_TRIANGLE.enum.find? (fun pr => decide (pr.2 ≤ remainder))
  let md : Nat × Int :=
    match result with
    | some (index, d) => (11 - index, remainder - d)
    | none => (0, remainder)
  let month := md.1 + 2
  let yw : Int × Nat := if month ≥ 12 then (years + 1, month - 12) else (years, month)
  let month_variant := (Month.from_zero (Int.ofNat yw.2)).getD .january
  { yearday := day_of_year + 1
    weekday := days_to_weekday days
    ymd := { year := yw.1 + 2000, month := month_variant, day := md.2 + 1 } }

/-- `cal/datetime.rs`: `LocalDate::ymd` (named `fromYmd` here because the
`LocalDate` structure already has a field called `ymd`). -/
def LocalDate.fromYmd (year : Int) (month : Month) (day : Int) : Option LocalDate :=
  (YMD.mk year month day).to_days_since_epoch.map
    (fun days => LocalDate.from_days_since_epoch (days - EPOCH_DIFFERENCE))

/-- `cal/datetime.rs`: `LocalDate::yd`. -/
def LocalDate.yd (year : Int) (yearday : Int) : Option LocalDate :=
  if is_within yearday 0 367 then
    (YMD.mk year .january 1).to_days_since_epoch.map
      (fun days => LocalDate.from_days_since_epoch (days + yearday - 1 - EPOCH_DIFFERENCE))
  else none

/-- `cal/datetime.rs`: `struct LocalTime`. -/
structure LocalTime where
  hour : Int
  minute : Int
  second : Int
  millisecond : Int
deriving DecidableEq, Repr

/-- `cal/datetime.rs`: `LocalTime::midnight`. -/
def LocalTime.midnight : LocalTime :=
  { hour := 0, minute := 0, second := 0, millisecond := 0 }

/-- `cal/datetime.rs`: `LocalTime::hm`. -/
def LocalTime.hm (hour minute : Int) : Option LocalTime :=
  if (is_within hour 0 24 && is_within minute 0 60)
      || (decide (hour = 24) && decide (minute = 0)) then
    some { hour := hour, minute := minute, second := 0, millisecond := 0 }
  else none

/-- `cal/datetime.rs`: `LocalTime::hms`. -/
def LocalTime.hms (hour minute second : Int) : Option LocalTime :=
  if (is_within hour 0 24 && is_within minute 0 60 && is_within second 0 60)
      || (decide (hour = 24) && decide (minute = 0) && decide (second = 0)) then
    some { hour := hour, minute := minute, second := second, millisecond := 0 }
  else none

/-- `cal/datetime.rs`: `LocalTime::hms_ms`. -/
def LocalTime.hms_ms (hour minute second millisecond : Int) : Option LocalTime :=
  if is_within hour 0 24 && is_within minute 0 60
      && is_within second 0 60 && is_within millisecond 0 1000 then
    some { hour := hour, minute := minute, second := second, millisecond := millisecond }
  else none

/-- `cal/datetime.rs`: `LocalTime::from_seconds_and_milliseconds_since_midnight`. -/
def LocalTime.from_seconds_and_milliseconds_since_midnight
    (seconds millisecond_of_second : Int) : LocalTime :=
  { hour := (seconds.tdiv 60).tdiv 60
    minute := (seconds.tdiv 60).tmod 60
    second := seconds.tmod 60
    millisecond := millisecond_of_second }

/-- `cal/datetime.rs`: `LocalTime::to_seconds`. -/
def LocalTime.to_seconds (self : LocalTime) : Int :=
  self.hour * 3600 + self.minute * 60 + self.second

/-- `duration.rs`: `struct Duration`. -/
structure Duration where
  seconds : Int
  milliseconds : Int
deriving DecidableEq, Repr

/-- `duration.rs`: `Duration::of`. -/
def Duration.of (seconds : Int) : Duration :=
  { seconds := seconds, milliseconds := 0 }

/-- `duration.rs`: `Duration::of_ms` — the source `assert!`s that the
milliseconds are within `[0, 999]`; the assertion failure is modelled as
`none`. -/
def Duration.of_ms (seconds milliseconds : Int) : Option Duration :=
  if 0 ≤ milliseconds ∧ milliseconds ≤ 999 then
    some { seconds := seconds, milliseconds := milliseconds }
  else none

/-- `duration.rs`: `impl Add<Duration> for Duration`. -/
def Duration.add (self rhs : Duration) : Option Duration :=
  let ms := self.milliseconds + rhs.milliseconds
  if ms ≥ 1000 then Duration.of_ms (self.seconds + rhs.seconds + 1) (ms - 1000)
  else Duration.of_ms (self.seconds + rhs.seconds) ms

/-- `duration.rs`: `impl Sub<Duration> for Duration`. -/
def Duration.sub (self rhs : Duration) : Option Duration :=
  let ms := self.milliseconds - rhs.milliseconds
  if ms < 0 then Duration.of_ms (self.seconds - rhs.seconds - 1) (ms + 1000)
  else Duration.of_ms (self.seconds - rhs.seconds) ms

/-- `duration.rs`: `impl Mul<i64> for Duration`. -/
def Duration.mul (self : Duration) (amount : Int) : Option Duration :=
  let ms := self.milliseconds * amount
  Duration.of_ms (self.seconds * amount + ms.tdiv 1000) (ms.tmod 1000)

/-- `instant.rs`: `struct Instant`. -/
structure Instant where
  seconds : Int
  milliseconds : Int
deriving DecidableEq, Repr

/-- `instant.rs`: `Instant::at_ms`. -/
def Instant.at_ms (seconds milliseconds : Int) : Instant :=
  { seconds := seconds, milliseconds := milliseconds }

/-- `instant.rs`: `Instant::at`. -/
def Instant.at (seconds : Int) : Instant :=
  Instant.at_ms seconds 0

/-- `instant.rs`: `impl Add<Duration> for Instant` — componentwise, with
no renormalization of the milliseconds. -/
def Instant.add (self : Instant) (duration : Duration) : Instant :=
  { seconds := self.seconds + duration.seconds
    milliseconds := self.milliseconds + duration.milliseconds }

/-- `instant.rs`: `impl Sub<Duration> for Instant` — componentwise, with
no renormalization of the milliseconds. -/
def Instant.sub (self : Instant) (duration : Duration) : Instant :=
  { seconds := self.seconds - duration.seconds
    milliseconds := self.milliseconds - duration.milliseconds }

/-- `cal/offset.rs`: `struct Offset` — `offset_seconds` is `None` for the
UTC offset. -/
structure Offset where
  offset_seconds : Option Int
deriving DecidableEq, Repr

/-- `cal/offset.rs`: `Offset::of_seconds`; `none` models `Err(OutOfRange)`. -/
def Offset.of_seconds (seconds : Int) : Option Offset :=
  if is_within seconds (-86400) 86401 then
    some { offset_seconds := some seconds }
  else none

/-- `cal/datetime.rs`: `struct LocalDateTime`. -/
structure LocalDateTime where
  date : LocalDate
  time : LocalTime
deriving DecidableEq, Repr

/-- `cal/datetime.rs`: `LocalDateTime::to_instant`.  The source `unwrap`s
`to_days_since_epoch`, which cannot fail for a date produced by the
library's own constructors; the `.getD 0` default models the otherwise
unreachable panic. -/
def LocalDateTime.to_instant (self : LocalDateTime) : Instant :=
  let seconds :=
    (self.date.ymd.to_days_since_epoch.getD 0) * SECONDS_IN_DAY + self.time.to_seconds
  Instant.at_ms seconds self.time.millisecond

/-- `cal/datetime.rs`: `LocalDateTime::at_ms`. -/
def LocalDateTime.at_ms (seconds_since_1970_epoch millisecond_of_second : Int) : LocalDateTime :=
  let seconds := seconds_since_1970_epoch - EPOCH_DIFFERENCE * SECONDS_IN_DAY
  let p := split_cycles seconds SECONDS_IN_DAY
  { date := LocalDate.from_days_since_epoch p.1
    time := LocalTime.from_seconds_and_milliseconds_since_midnight p.2 millisecond_of_second }

/-- `cal/datetime.rs`: `LocalDateTime::at`. -/
def LocalDateTime.at (seconds_since_1970_epoch : Int) : LocalDateTime :=
  LocalDateTime.at_ms seconds_since_1970_epoch 0

/-- `cal/datetime.rs`: `LocalDateTime::from_instant`. -/
def LocalDateTime.from_instant (instant : Instant) : LocalDateTime :=
  LocalDateTime.at_ms instant.seconds instant.milliseconds

/-- `cal/datetime.rs`: `impl Sub<Duration> for LocalDateTime`. -/
def LocalDateTime.subDuration (self : LocalDateTime) (duration : Duration) : LocalDateTime :=
  LocalDateTime.from_instant (self.to_instant.sub duration)

/-- `cal/zone.rs`: `struct FixedTimespan` — a fixed offset from UTC, a
DST flag, and an abbreviation. -/
structure FixedTimespan where
  offset : Int
  is_dst : Bool
  name : String
deriving DecidableEq, Repr

/-- `cal/zone.rs`: `struct FixedTimespanSet` — a first timespan plus an
ordered list of `(transition instant, timespan)` pairs. -/
structure FixedTimespanSet where
  first : FixedTimespan
  rest : List (Int × FixedTimespan)
deriving DecidableEq, Repr

/-- `cal/zone.rs`: `FixedTimespanSet::find`. -/
def FixedTimespanSet.find (self : FixedTimespanSet) (time : Int) : FixedTimespan :=
  match (self.rest.takeWhile (fun t => decide (t.1 < time))).getLast? with
  | none => self.first
  | some zd => zd.2

/-- `cal/zone.rs`: `struct Surroundings`. -/
structure Surroundings where
  previous : Option (FixedTimespan × Int)
  current : FixedTimespan
  next : Option (Int × FixedTimespan)
deriving DecidableEq, Repr

/-- `cal/zone.rs`: `FixedTimespanSet::find_with_surroundings`.  The
source indexes `self.rest[position]` and `self.rest[position - 1]`, which
are in bounds because `position` comes from `enumerate()`; the `.getD`
defaults model the otherwise unreachable panics. -/
def FixedTimespanSet.find_with_surroundings (self : FixedTimespanSet) (time : Int) :
    Surroundings :=
  match (self.rest.enum.takeWhile (fun p => decide (p.2.1 < time))).getLast? with
  | some (position, _) =>
      let previous_details :=
        if position = 0 then self.first
        else ((self.rest[position - 1]?).map Prod.snd).getD self.first
      { previous := some (previous_details, ((self.rest[position]?).map Prod.fst).getD 0)
        current := ((self.rest[position]?).map Prod.snd).getD self.first
        next := self.rest[position + 1]? }
  | none =>
      { previous := none
        current := self.first
        next := self.rest[0]? }

/-- `cal/zone.rs`: `struct ZonedDateTime` — the adjusted local fields and
the offset used to interpret them.  (The source also stores a reference
to the time zone; that reference does not affect any computation modelled
here.) -/
structure ZonedDateTime where
  adjusted : LocalDateTime
  current_offset : Int
deriving DecidableEq, Repr

/-- `cal/zone.rs`: `ZonedDateTime::to_instant` —
`(self.adjusted - Duration::of(self.current_offset)).to_instant()`. -/
def ZonedDateTime.to_instant (self : ZonedDateTime) : Instant :=
  (self.adjusted.subDuration (Duration.of self.current_offset)).to_instant

/-- `cal/zone.rs`: `enum LocalTimes` — the three-way result of
`convert_local`. -/
inductive LocalTimes where
  | impossible
  | precise (z : ZonedDateTime)
  | ambiguous (earlier later : ZonedDateTime)
deriving DecidableEq, Repr

/-- `cal/zone.rs`: the second half of `FixedTimespanSet::convert_local`
(the checks against the *next* boundary, and the final `Precise` result),
reached when the previous-boundary checks did not return early.  A failed
`assert!` is modelled as `none`. -/
def convert_local_next (zonify : Int → ZonedDateTime) (unix_timestamp : Int)
    (timespans : Surroundings) : Option LocalTimes :=
  match timespans.next with
  | some (next_transition_time, next_zone) =>
      if timespans.current.offset = next_zone.offset then none
      else if timespans.current.offset > next_zone.offset
          ∧ is_within (unix_timestamp - next_transition_time)
              next_zone.offset timespans.current.offset = true then
        some (.ambiguous (zonify timespans.current.offset) (zonify next_zone.offset))
      else if timespans.current.offset < next_zone.offset
          ∧ is_within (unix_timestamp - next_transition_time)
              timespans.current.offset next_zone.offset = true then
        some .impossible
      else some (.precise (zonify timespans.current.offset))
  | none => some (.precise (zonify timespans.current.offset))

/-- `cal/zone.rs`: `FixedTimespanSet::convert_local`.  A failed `assert!`
("Offsets cannot be equal!") is modelled as `none`; the `println!` calls
have no effect on the result. -/
def FixedTimespanSet.convert_local (self : FixedTimespanSet) (localDT : LocalDateTime) :
    Option LocalTimes :=
  let unix_timestamp := localDT.to_instant.seconds
  let zonify : Int → ZonedDateTime :=
    fun offset => { adjusted := localDT, current_offset := offset }
  let timespans := self.find_with_surroundings unix_timestamp
  match timespans.previous with
  | some (previous_zone, previous_transition_time) =>
      if timespans.current.offset = previous_zone.offset then none
      else if previous_zone.offset > timespans.current.offset
          ∧ is_within (unix_timestamp - previous_transition_time)
              timespans.current.offset previous_zone.offset = true then
        some (.ambiguous (zonify previous_zone.offset) (zonify timespans.current.offset))
      else if previous_zone.offset < timespans.current.offset
          ∧ is_within (unix_timestamp - previous_transition_time)
              previous_zone.offset timespans.current.offset = true then
        some .impossible
      else convert_local_next zonify unix_timestamp timespans
  | none => convert_local_next zonify unix_timestamp timespans

/-- The number of days in a year according to the engine's own leap-year
classification (`YMD::leap_year_calculations`). -/
def daysInYear (year : Int) : Int :=
  if (YMD.mk year .january 1).leap_year_calculations.2 then 366 else 365

/-! ### Helper lemmas -/

/-- Truncating remainder negated: `(-a).tmod b = -(a.tmod b)`. -/
lemma neg_tmod_eq (a b : Int) : (-a).tmod b = -(a.tmod b) := by
  rw [Int.tmod_def, Int.tmod_def, Int.neg_tdiv]
  ring

/-- The truncating remainder by a positive modulus is strictly greater
than its negation. -/
lemma tmod_gt_neg (a : Int) {b : Int} (hb : 0 < b) : -b < a.tmod b := by
  rcases le_or_lt 0 a with ha | ha
  · have := Int.tmod_nonneg b ha
    omega
  · have h1 : (-a).tmod b < b := Int.tmod_lt_of_pos (-a) hb
    have h2 : (-a).tmod b = -(a.tmod b) := neg_tmod_eq a b
    omega

/-- `split_cycles` really is division with a non-negative remainder. -/
lemma split_cycles_spec (n L : Int) (hL : 0 < L) :
    (split_cycles n L).1 * L + (split_cycles n L).2 = n ∧
      0 ≤ (split_cycles n L).2 ∧ (split_cycles n L).2 < L := by
  unfold split_cycles
  have hsum : L * n.tdiv L + n.tmod L = n := Int.tdiv_add_tmod n L
  have hup : n.tmod L < L := Int.tmod_lt_of_pos n hL
  have hlow : -L < n.tmod L := tmod_gt_neg n hL
  by_cases h : n.tmod L < 0
  · simp only [h, if_true]
    constructor
    · nlinarith [hsum]
    · omega
  · simp only [h, if_false]
    constructor
    · nlinarith [hsum]
    · omega

/-- For a positive modulus, `split_cycles` coincides with Euclidean
division and remainder. -/
lemma split_cycles_eq (n L : Int) (hL : 0 < L) :
    split_cycles n L = (n / L, n % L) := by
  obtain ⟨hsum, h0, h1⟩ := split_cycles_spec n L hL
  have := (Int.ediv_emod_unique (a := n) (b := L)
    (r := (split_cycles n L).2) (q := (split_cycles n L).1) hL).mpr
    ⟨by linarith [hsum], h0, h1⟩
  obtain ⟨hq, hr⟩ := this
  ext
  · exact hq.symm
  · exact hr.symm

/-! ### C10: `split_cycles` is division with a non-negative remainder -/

/-- **C10**: for every integer `n` and every positive cycle length `L`,
`split_cycles n L` returns a pair `(cycles, remainder)` with
`cycles * L + remainder = n` and `0 ≤ remainder < L`; in particular a
negative `n` yields a non-negative remainder (the borrow of one cycle is
what the `if remainder < 0` fix-up performs). -/
theorem split_cycles_division (n L : Int) (hL : 0 < L) :
    (split_cycles n L).1 * L + (split_cycles n L).2 = n ∧
      0 ≤ (split_cycles n L).2 ∧ (split_cycles n L).2 < L :=
  split_cycles_spec n L hL

/-- Witness for C10 at a negative input: `split_cycles (-5) 3` satisfies
the division law with remainder in `[0, 3)`. -/
theorem split_cycles_division_witness :
    (split_cycles (-5) 3).1 * 3 + (split_cycles (-5) 3).2 = -5 ∧
      0 ≤ (split_cycles (-5) 3).2 ∧ (split_cycles (-5) 3).2 < 3 :=
  split_cycles_division (-5) 3 (by decide)

/-! ### C7: `Offset::of_seconds` bounds -/

/-- Counterexample to C7 as stated: the boundary value 86400 is
*accepted* by `Offset::of_seconds` (the code checks
`is_within(-86400..86401)`), not rejected. -/
theorem of_seconds_accepts_86400 :
    Offset.of_seconds 86400 = some { offset_seconds := some 86400 } := by
  decide

/-- **C7 (amended)**: `Offset::of_seconds s` returns `Ok` exactly when
`-86400 ≤ s ≤ 86400`, and `Err(OutOfRange)` otherwise; both boundary
values are accepted. -/
theorem of_seconds_bounds (s : Int) :
    (Offset.of_seconds s).isSome ↔ (-86400 ≤ s ∧ s ≤ 86400) := by
  simp only [Offset.of_seconds, is_within]
  split_ifs with h <;>
    simp only [Bool.and_eq_true, decide_eq_true_eq] at h <;> simp <;> omega

/-! ### C8: `LocalTime` constructor domains -/

/-- Counterexample to C8 as stated: `hms_ms` rejects the end-of-day
sentinel `24:00:00.000` (its range check has no `hour == 24` exception,
unlike `hm` and `hms`). -/
theorem hms_ms_rejects_midnight24 :
    LocalTime.hms_ms 24 0 0 0 = none := by
  decide

/-- **C8 (amended)**: `hm` and `hms` accept exactly the in-range field
combinations plus the `24:00[:00]` end-of-day sentinel; `hms_ms` accepts
exactly the in-range combinations, with *no* hour-24 exception. -/
theorem localtime_constructor_domains (h m s ms : Int) :
    ((LocalTime.hm h m).isSome ↔
        ((0 ≤ h ∧ h < 24 ∧ 0 ≤ m ∧ m < 60) ∨ (h = 24 ∧ m = 0))) ∧
    ((LocalTime.hms h m s).isSome ↔
        ((0 ≤ h ∧ h < 24 ∧ 0 ≤ m ∧ m < 60 ∧ 0 ≤ s ∧ s < 60) ∨
          (h = 24 ∧ m = 0 ∧ s = 0))) ∧
    ((LocalTime.hms_ms h m s ms).isSome ↔
        (0 ≤ h ∧ h < 24 ∧ 0 ≤ m ∧ m < 60 ∧ 0 ≤ s ∧ s < 60 ∧
          0 ≤ ms ∧ ms < 1000)) := by
  refine ⟨?_, ?_, ?_⟩ <;>
    · simp only [LocalTime.hm, LocalTime.hms, LocalTime.hms_ms, is_within]
      split_ifs with hc <;>
        simp only [Bool.or_eq_true, Bool.and_eq_true, decide_eq_true_eq] at hc <;>
        simp <;> omega

/-! ### C6: arithmetic renormalization of milliseconds -/

/-- Counterexample to C6 as stated: `Instant + Duration` adds the
millisecond components without renormalizing (500 + 600 = 1100, outside
`[0, 999]`), and `Duration * (-1)` trips the `of_ms` assertion (a panic,
modelled as `none`) instead of producing a normalized result. -/
theorem instant_add_not_normalized :
    Instant.add (Instant.at_ms 0 500) { seconds := 0, milliseconds := 600 }
        = { seconds := 0, milliseconds := 1100 } ∧
      Duration.mul { seconds := 0, milliseconds := 500 } (-1) = none := by
  constructor <;> decide

/-- **C6 (amended)**: for operands whose millisecond components lie in
`[0, 999]`, `Duration + Duration`, `Duration − Duration`, and
`Duration × k` for *non-negative* `k` succeed (no assertion failure) and
produce a millisecond component again in `[0, 999]`.  (`Instant ±
Duration` merely combines the fields componentwise, so it does not
preserve the invariant, and a negative multiplier trips the `of_ms`
assertion — see the counterexample.) -/
theorem duration_arithmetic_normalized (a b : Duration) (k : Int)
    (ha0 : 0 ≤ a.milliseconds) (ha1 : a.milliseconds ≤ 999)
    (hb0 : 0 ≤ b.milliseconds) (hb1 : b.milliseconds ≤ 999)
    (hk : 0 ≤ k) :
    (∃ cs cms, a.add b = some ⟨cs, cms⟩ ∧ 0 ≤ cms ∧ cms ≤ 999) ∧
    (∃ cs cms, a.sub b = some ⟨cs, cms⟩ ∧ 0 ≤ cms ∧ cms ≤ 999) ∧
    (∃ cs cms, a.mul k = some ⟨cs, cms⟩ ∧ 0 ≤ cms ∧ cms ≤ 999) := by
  refine ⟨?_, ?_, ?_⟩
  · simp only [Duration.add, Duration.of_ms]
    split_ifs with h1 h2 h2 <;> first
      | exact ⟨_, _, rfl, by omega, by omega⟩
      | exact absurd (by constructor <;> omega) h2
  · simp only [Duration.sub, Duration.of_ms]
    split_ifs with h1 h2 h2 <;> first
      | exact ⟨_, _, rfl, by omega, by omega⟩
      | exact absurd (by constructor <;> omega) h2
  · have hprod : 0 ≤ a.milliseconds * k := mul_nonneg ha0 hk
    have hmod : (a.milliseconds * k).tmod 1000 = (a.milliseconds * k) % 1000 :=
      Int.tmod_eq_emod hprod (by norm_num)
    have h0 : 0 ≤ (a.milliseconds * k) % 1000 :=
      Int.emod_nonneg _ (by norm_num)
    have h1 : (a.milliseconds * k) % 1000 < 1000 :=
      Int.emod_lt_of_pos _ (by norm_num)
    simp only [Duration.mul, Duration.of_ms, hmod]
    rw [if_pos (by omega : 0 ≤ (a.milliseconds * k) % 1000 ∧ (a.milliseconds * k) % 1000 ≤ 999)]
    exact ⟨_, _, rfl, by omega, by omega⟩

/-- Witness for C6 (amended) at concrete inputs with milliseconds 500 and
700 and multiplier 3. -/
theorem duration_arithmetic_normalized_witness :
    (∃ cs cms, Duration.add { seconds := 1, milliseconds := 500 }
        { seconds := 2, milliseconds := 700 } = some ⟨cs, cms⟩ ∧
        0 ≤ cms ∧ cms ≤ 999) ∧
    (∃ cs cms, Duration.sub { seconds := 1, milliseconds := 500 }
        { seconds := 2, milliseconds := 700 } = some ⟨cs, cms⟩ ∧
        0 ≤ cms ∧ cms ≤ 999) ∧
    (∃ cs cms, Duration.mul { seconds := 1, milliseconds := 500 } 3 = some ⟨cs, cms⟩ ∧
        0 ≤ cms ∧ cms ≤ 999) :=
  duration_arithmetic_normalized { seconds := 1, milliseconds := 500 }
    { seconds := 2, milliseconds := 700 } 3
    (by decide) (by decide) (by decide) (by decide) (by decide)

/-! ### C5: `FixedTimespanSet::find` -/

/-- On a list whose transition times are strictly ascending, taking the
prefix of entries before `t` is the same as filtering them. -/
lemma takeWhile_lt_eq_filter (t : Int) :
    ∀ (l : List (Int × FixedTimespan)), l.Pairwise (fun a b => a.1 < b.1) →
      l.takeWhile (fun p => decide (p.1 < t)) = l.filter (fun p => decide (p.1 < t))
  | [], _ => rfl
  | x :: xs, h => by
    obtain ⟨hx, hxs⟩ := List.pairwise_cons.mp h
    by_cases hxt : x.1 < t
    · rw [List.takeWhile_cons_of_pos (by simpa using hxt),
        List.filter_cons_of_pos (by simpa using hxt),
        takeWhile_lt_eq_filter t xs hxs]
    · rw [List.takeWhile_cons_of_neg (by simpa using hxt),
        List.filter_cons_of_neg (by simpa using hxt)]
      have : xs.filter (fun p => decide (p.1 < t)) = [] := by
        rw [List.filter_eq_nil_iff]
        intro q hq
        have := hx q hq
        simp only [decide_eq_true_eq]
        omega
      rw [this]

/-- In a strictly ascending list, an element that is an upper bound of
the whole list is its last element. -/
lemma getLast?_of_max (p : Int × FixedTimespan) :
    ∀ (l : List (Int × FixedTimespan)), l.Pairwise (fun a b => a.1 < b.1) →
      p ∈ l → (∀ q ∈ l, q.1 ≤ p.1) → l.getLast? = some p
  | [], _, hp, _ => by cases hp
  | x :: xs, h, hp, hmax => by
    obtain ⟨hx, hxs⟩ := List.pairwise_cons.mp h
    match hxs2 : xs with
    | [] =>
      cases List.mem_singleton.mp hp
      rfl
    | y :: ys =>
      rw [List.getLast?_cons_cons]
      rcases List.mem_cons.mp hp with rfl | hpxs
      · exfalso
        have h1 := hx y (by simp)
        have h2 := hmax y (by simp)
        omega
      · exact getLast?_of_max p (y :: ys) hxs hpxs
          (fun q hq => hmax q (List.mem_cons_of_mem x hq))

/-- **C5**: on a `FixedTimespanSet` whose `rest` list is sorted strictly
ascending by transition time, `find t` returns the timespan of the last
(equivalently, latest) entry whose transition time is strictly less than
`t`, or `first` if no entry qualifies.  Since the comparison is strict,
at `t` equal to a transition instant the timespan in effect *before* that
transition is returned. -/
theorem find_returns_latest (s : FixedTimespanSet) (t : Int)
    (hsorted : s.rest.Pairwise (fun a b => a.1 < b.1)) :
    (s.find t = match (s.rest.filter (fun p => decide (p.1 < t))).getLast? with
                | none => s.first
                | some zd => zd.2) ∧
    ((∀ p ∈ s.rest, ¬ p.1 < t) → s.find t = s.first) ∧
    (∀ p ∈ s.rest, p.1 < t → (∀ q ∈ s.rest, q.1 < t → q.1 ≤ p.1) →
      s.find t = p.2) := by
  have hfind : s.find t
      = match (s.rest.filter (fun p => decide (p.1 < t))).getLast? with
        | none => s.first
        | some zd => zd.2 := by
    unfold FixedTimespanSet.find
    rw [takeWhile_lt_eq_filter t s.rest hsorted]
  refine ⟨hfind, ?_, ?_⟩
  · intro hnone
    have hfe : s.rest.filter (fun p => decide (p.1 < t)) = [] := by
      rw [List.filter_eq_nil_iff]
      intro q hq
      simpa using hnone q hq
    rw [hfind, hfe]
    rfl
  · intro p hp hpt hmax
    have hpf : p ∈ s.rest.filter (fun q => decide (q.1 < t)) :=
      List.mem_filter.mpr ⟨hp, by simpa using hpt⟩
    have hfs : (s.rest.filter (fun q => decide (q.1 < t))).Pairwise
        (fun a b => a.1 < b.1) := List.Pairwise.filter _ hsorted
    have hmaxf : ∀ q ∈ s.rest.filter (fun q => decide (q.1 < t)), q.1 ≤ p.1 := by
      intro q hq
      obtain ⟨hq1, hq2⟩ := List.mem_filter.mp hq
      exact hmax q hq1 (by simpa using hq2)
    have := getLast?_of_max p _ hfs hpf hmaxf
    rw [hfind, this]

/-- Witness for C5 on the three-timespan table from the source's own
tests, queried at exactly the second transition instant: the timespan in
effect before that transition (`ZONE_B`) is returned. -/
theorem find_returns_latest_witness :
    (FixedTimespanSet.mk ⟨0, false, "ZONE_A"⟩
        [(1174784400, ⟨3600, false, "ZONE_B"⟩), (1193533200, ⟨0, false, "ZONE_C"⟩)]).find
        1193533200 = ⟨3600, false, "ZONE_B"⟩ :=
  ((find_returns_latest
      (FixedTimespanSet.mk ⟨0, false, "ZONE_A"⟩
        [(1174784400, ⟨3600, false, "ZONE_B"⟩), (1193533200, ⟨0, false, "ZONE_C"⟩)])
      1193533200 (by decide)).1).trans (by decide)

/-! ### C3: `convert_local` against the previous boundary -/

/-- **C3**: whenever `find_with_surroundings` (queried at the tentative
unix timestamp obtained by treating the local fields as UTC) reports a
previous timespan, then — with `Δt` the tentative timestamp minus the
previous transition time — if the previous offset is larger than the
current one and `Δt ∈ [current.offset, previous.offset)`, `convert_local`
returns `Ambiguous` with the earlier value under the previous (larger)
offset and the later value under the current (smaller) offset; and if the
previous offset is smaller and `Δt ∈ [previous.offset, current.offset)`,
it returns `Impossible`. -/
theorem convert_local_previous_boundary
    (s : FixedTimespanSet) (localDT : LocalDateTime)
    (previous_zone : FixedTimespan) (previous_transition_time : Int)
    (hprev : (s.find_with_surroundings localDT.to_instant.seconds).previous
        = some (previous_zone, previous_transition_time)) :
    (previous_zone.offset
          > (s.find_with_surroundings localDT.to_instant.seconds).current.offset →
      (s.find_with_surroundings localDT.to_instant.seconds).current.offset
          ≤ localDT.to_instant.seconds - previous_transition_time →
      localDT.to_instant.seconds - previous_transition_time < previous_zone.offset →
      s.convert_local localDT = some (.ambiguous
        { adjusted := localDT, current_offset := previous_zone.offset }
        { adjusted := localDT,
          current_offset :=
            (s.find_with_surroundings localDT.to_instant.seconds).current.offset })) ∧
    (previous_zone.offset
          < (s.find_with_surroundings localDT.to_instant.seconds).current.offset →
      previous_zone.offset ≤ localDT.to_instant.seconds - previous_transition_time →
      localDT.to_instant.seconds - previous_transition_time
          < (s.find_with_surroundings localDT.to_instant.seconds).current.offset →
      s.convert_local localDT = some .impossible) := by
  constructor
  · intro hgt hlo hhi
    simp only [FixedTimespanSet.convert_local]
    split
    case _ pz pt heq =>
      rw [hprev] at heq
      cases heq
      rw [if_neg (by omega)]
      rw [if_pos ⟨hgt, by simp only [is_within, Bool.and_eq_true, decide_eq_true_eq]; omega⟩]
    case _ heq =>
      rw [hprev] at heq
      cases heq
  · intro hlt hlo hhi
    simp only [FixedTimespanSet.convert_local]
    split
    case _ pz pt heq =>
      rw [hprev] at heq
      cases heq
      rw [if_neg (by omega)]
      rw [if_neg (by
        rintro ⟨hc, _⟩
        omega)]
      rw [if_pos ⟨hlt, by simp only [is_within, Bool.and_eq_true, decide_eq_true_eq]; omega⟩]
    case _ heq =>
      rw [hprev] at heq
      cases heq

/-- Witness for C3: a table that falls back from offset 3600 to offset 0
at instant 0, queried 30 seconds into the overlap, yields `Ambiguous`
with the earlier reading under offset 3600 and the later under 0. -/
theorem convert_local_previous_boundary_witness :
    (FixedTimespanSet.mk ⟨3600, false, "ZONE_A"⟩
        [(0, ⟨0, false, "ZONE_B"⟩)]).convert_local (LocalDateTime.at 30)
      = some (.ambiguous
          { adjusted := LocalDateTime.at 30, current_offset := 3600 }
          { adjusted := LocalDateTime.at 30, current_offset := 0 }) := by
  have h := (convert_local_previous_boundary
      (FixedTimespanSet.mk ⟨3600, false, "ZONE_A"⟩ [(0, ⟨0, false, "ZONE_B"⟩)])
      (LocalDateTime.at 30) ⟨3600, false, "ZONE_A"⟩ 0 (by decide)).1
    (by decide) (by decide) (by decide)
  rw [h]
  decide

/-! ### C1, C2, C4: the uncapped cycle decomposition -/

/-- **C2**: evaluation of the code at the failing inputs.  The claim —
matching the spec — says the 100-year-cycle count is capped at 3 and the
whole-years count at 3, so that the last day of a 4-year cycle (day 1460)
and of a 400-year cycle (day 146096) map to 29 February.  The code has
*no* such caps (`remainder / DAYS_IN_100Y` and `remainder / 365` are used
directly), so both days map to 1 March of the cycle's final year instead
of 29 February: day 1460 yields 1 March 2004 and day 146096 yields
1 March 2400 (with yearday still 60, the yearday of 29 February). -/
theorem from_days_uncapped_cycle_counts :
    LocalDate.from_days_since_epoch 1460
        = { ymd := ⟨2004, .march, 1⟩, yearday := 60, weekday := .sunday } ∧
      LocalDate.from_days_since_epoch 146096
        = { ymd := ⟨2400, .march, 1⟩, yearday := 60, weekday := .tuesday } := by
  constructor <;> decide

/-- **C1**: evaluation of the code at the failing input.  The valid
triple (2004, February, 29) has day-count 12477 (`to_days_since_epoch`),
i.e. 1460 days past the internal 1 March 2000 epoch, but converting that
count back yields 1 March 2004 — the round-trip loses every
29 February. -/
theorem ymd_roundtrip_fails_feb29 :
    (YMD.mk 2004 .february 29).to_days_since_epoch = some 12477 ∧
      LocalDate.fromYmd 2004 .february 29
        = some { ymd := ⟨2004, .march, 1⟩, yearday := 60, weekday := .sunday } := by
  constructor <;> decide

/-- **C4**: evaluation of the code at the failing input.  With the
single-timespan table at offset 3600 and the local datetime
1 March 2004 00:00:00, `convert_local` returns `Precise` carrying the
local fields unchanged and the current offset (the first half of the
claim), but `z.to_instant()` re-derives the local fields through
`from_days_since_epoch`, which maps the 29-February day-count to
1 March; the recovered instant is 1078182000 instead of the direct
`UTC − offset` value 1078099200 − 3600 = 1078095600. -/
theorem convert_local_precise_instant_mismatch :
    (FixedTimespanSet.mk ⟨3600, false, "TST"⟩ []).convert_local
        ⟨LocalDate.from_days_since_epoch 1461, LocalTime.midnight⟩
      = some (.precise
          { adjusted := ⟨LocalDate.from_days_since_epoch 1461, LocalTime.midnight⟩
            current_offset := 3600 }) ∧
    (ZonedDateTime.mk ⟨LocalDate.from_days_since_epoch 1461, LocalTime.midnight⟩
        3600).to_instant.seconds = 1078182000 ∧
    (LocalDateTime.mk (LocalDate.from_days_since_epoch 1461)
        LocalTime.midnight).to_instant.seconds - 3600 = 1078095600 := by
  refine ⟨?_, ?_, ?_⟩ <;> decide

/-! ### C9: `LocalDate::yd` domain and accessor behaviour -/

/-- Evaluation of the time-triangle scan for a remainder in `[0, 365)`:
the first cumulative count at most `rem` is found, January (index 0) for
remainders of 337 and up, December (index 1) from 306, and so on; below
31 nothing matches (February). -/
lemma find_triangle_eq (rem : Int) (h0 : 0 ≤ rem) (h365 : rem < 365) :
    TIME_TRIANGLE.enum.find? (fun (pr : Nat × Int) => decide (pr.2 ≤ rem))
      = if 337 ≤ rem then some (0, 337)
        else if 306 ≤ rem then some (1, 306)
        else if 275 ≤ rem then some (2, 275)
        else if 245 ≤ rem then some (3, 245)
        else if 214 ≤ rem then some (4, 214)
        else if 184 ≤ rem then some (5, 184)
        else if 153 ≤ rem then some (6, 153)
        else if 122 ≤ rem then some (7, 122)
        else if 92 ≤ rem then some (8, 92)
        else if 61 ≤ rem then some (9, 61)
        else if 31 ≤ rem then some (10, 31)
        else none := by
  interval_cases rem <;> decide

lemma from_days_char (days : Int) :
    (LocalDate.from_days_since_epoch days).ymd.year
      = 2000 + 400 * (days / 146097) + 100 * (days % 146097 / 36524)
        + 4 * (days % 146097 % 36524 / 1461) + days % 146097 % 36524 % 1461 / 365
        + (if 306 ≤ days % 146097 % 36524 % 1461 % 365 then 1 else 0)
  ∧ (LocalDate.from_days_since_epoch days).yearday
      = 1 + (if 306 ≤ days % 146097 % 36524 % 1461 % 365
             then days % 146097 % 36524 % 1461 % 365 - 306
             else days % 146097 % 36524 % 1461 % 365
               + (if days % 146097 % 36524 % 1461 / 365 = 0
                    ∧ ¬(days % 146097 % 36524 / 1461 = 0 ∧ days % 146097 / 36524 ≠ 0)
                  then 366 else 365) - 306) := by
  simp only [LocalDate.from_days_since_epoch]
  rw [show DAYS_IN_400Y = 146097 from by norm_num [DAYS_IN_400Y],
      show DAYS_IN_100Y = 36524 from by norm_num [DAYS_IN_100Y],
      show DAYS_IN_4Y = 1461 from by norm_num [DAYS_IN_4Y]]
  rw [split_cycles_eq days 146097 (by norm_num)]
  have hR : 0 ≤ days % 146097 := Int.emod_nonneg days (by norm_num)
  rw [Int.tdiv_eq_ediv hR (by norm_num)]
  have e1 : days % 146097 - days % 146097 / 36524 * 36524 = days % 146097 % 36524 := by
    omega
  rw [e1]
  have hR1 : 0 ≤ days % 146097 % 36524 := Int.emod_nonneg _ (by norm_num)
  rw [Int.tdiv_eq_ediv hR1 (by norm_num)]
  have e2 : days % 146097 % 36524 - days % 146097 % 36524 / 1461 * 1461
      = days % 146097 % 36524 % 1461 := by
    omega
  rw [e2]
  have hR2 : 0 ≤ days % 146097 % 36524 % 1461 := Int.emod_nonneg _ (by norm_num)
  rw [Int.tdiv_eq_ediv hR2 (by norm_num)]
  have e3 : days % 146097 % 36524 % 1461 - days % 146097 % 36524 % 1461 / 365 * 365
      = days % 146097 % 36524 % 1461 % 365 := by
    omega
  rw [e3]
  have hR3 : 0 ≤ days % 146097 % 36524 % 1461 % 365 := Int.emod_nonneg _ (by norm_num)
  have hR3u : days % 146097 % 36524 % 1461 % 365 < 365 := Int.emod_lt_of_pos _ (by norm_num)
  have hfe := find_triangle_eq (days % 146097 % 36524 % 1461 % 365) hR3 hR3u
  constructor
  ·
    rcases le_or_lt 337 (days % 146097 % 36524 % 1461 % 365) with hb0 | hb0
    · rw [if_pos hb0] at hfe
      rw [hfe]
      simp only []
      split_ifs <;> omega
    rcases le_or_lt 306 (days % 146097 % 36524 % 1461 % 365) with hb1 | hb1
    · rw [if_neg (by omega : ¬((337:Int) ≤ days % 146097 % 36524 % 1461 % 365)), if_pos hb1] at hfe
      rw [hfe]
      simp only []
      split_ifs <;> omega
    rcases le_or_lt 275 (days % 146097 % 36524 % 1461 % 365) with hb2 | hb2
    · rw [if_neg (by omega : ¬((337:Int) ≤ days % 146097 % 36524 % 1461 % 365)), if_neg (by omega : ¬((306:Int) ≤ days % 146097 % 36524 % 1461 % 365)), if_pos hb2] at hfe
      rw [hfe]
      simp only []
      split_ifs <;> omega
    rcases le_or_lt 245 (days % 146097 % 36524 % 1461 % 365) with hb3 | hb3
    · rw [if_neg (by omega : ¬((337:Int) ≤ days % 146097 % 36524 % 1461 % 365)), if_neg (by omega : ¬((306:Int) ≤ days % 146097 % 36524 % 1461 % 365)), if_neg (by omega : ¬((275:Int) ≤ days % 146097 % 36524 % 1461 % 365)), if_pos hb3] at hfe
      rw [hfe]
      simp only []
      split_ifs <;> omega
    rcases le_or_lt 214 (days % 146097 % 36524 % 1461 % 365) with hb4 | hb4
    · rw [if_neg (by omega : ¬((337:Int) ≤ days % 146097 % 36524 % 1461 % 365)), if_neg (by omega : ¬((306:Int) ≤ days % 146097 % 36524 % 1461 % 365)), if_neg (by omega : ¬((275:Int) ≤ days % 146097 % 36524 % 1461 % 365)), if_neg (by omega : ¬((245:Int) ≤ days % 146097 % 36524 % 1461 % 365)), if_pos hb4] at hfe
      rw [hfe]
      simp only []
      split_ifs <;> omega
    rcases le_or_lt 184 (days % 146097 % 36524 % 1461 % 365) with hb5 | hb5
    · rw [if_neg (by omega : ¬((337:Int) ≤ days % 146097 % 36524 % 1461 % 365)), if_neg (by omega : ¬((306:Int) ≤ days % 146097 % 36524 % 1461 % 365)), if_neg (by omega : ¬((275:Int) ≤ days % 146097 % 36524 % 1461 % 365)), if_neg (by omega : ¬((245:Int) ≤ days % 146097 % 36524 % 1461 % 365)), if_neg (by omega : ¬((214:Int) ≤ days % 146097 % 36524 % 1461 % 365)), if_pos hb5] at hfe
      rw [hfe]
      simp only []
      split_ifs <;> omega
    rcases le_or_lt 153 (days % 146097 % 36524 % 1461 % 365) with hb6 | hb6
    · rw [if_neg (by omega : ¬((337:Int) ≤ days % 146097 % 36524 % 1461 % 365)), if_neg (by omega : ¬((306:Int) ≤ days % 146097 % 36524 % 1461 % 365)), if_neg (by omega : ¬((275:Int) ≤ days % 146097 % 36524 % 1461 % 365)), if_neg (by omega : ¬((245:Int) ≤ days % 146097 % 36524 % 1461 % 365)), if_neg (by omega : ¬((214:Int) ≤ days % 146097 % 36524 % 1461 % 365)), if_neg (by omega : ¬((184:Int) ≤ days % 146097 % 36524 % 1461 % 365)), if_pos hb6] at hfe
      rw [hfe]
      simp only []
      split_ifs <;> omega
    rcases le_or_lt 122 (days % 146097 % 36524 % 1461 % 365) with hb7 | hb7
    · rw [if_neg (by omega : ¬((337:Int) ≤ days % 146097 % 36524 % 1461 % 365)), if_neg (by omega : ¬((306:Int) ≤ days % 146097 % 36524 % 1461 % 365)), if_neg (by omega : ¬((275:Int) ≤ days % 146097 % 36524 % 1461 % 365)), if_neg (by omega : ¬((245:Int) ≤ days % 146097 % 36524 % 1461 % 365)), if_neg (by omega : ¬((214:Int) ≤ days % 146097 % 36524 % 1461 % 365)), if_neg (by omega : ¬((184:Int) ≤ days % 146097 % 36524 % 1461 % 365)), if_neg (by omega : ¬((153:Int) ≤ days % 146097 % 36524 % 1461 % 365)), if_pos hb7] at hfe
      rw [hfe]
      simp only []
      split_ifs <;> omega
    rcases le_or_lt 92 (days % 146097 % 36524 % 1461 % 365) with hb8 | hb8
    · rw [if_neg (by omega : ¬((337:Int) ≤ days % 146097 % 36524 % 1461 % 365)), if_neg (by omega : ¬((306:Int) ≤ days % 146097 % 36524 % 1461 % 365)), if_neg (by omega : ¬((275:Int) ≤ days % 146097 % 36524 % 1461 % 365)), if_neg (by omega : ¬((245:Int) ≤ days % 146097 % 36524 % 1461 % 365)), if_neg (by omega : ¬((214:Int) ≤ days % 146097 % 36524 % 1461 % 365)), if_neg (by omega : ¬((184:Int) ≤ days % 146097 % 36524 % 1461 % 365)), if_neg (by omega : ¬((153:Int) ≤ days % 146097 % 36524 % 1461 % 365)), if_neg (by omega : ¬((122:Int) ≤ days % 146097 % 36524 % 1461 % 365)), if_pos hb8] at hfe
      rw [hfe]
      simp only []
      split_ifs <;> omega
    rcases le_or_lt 61 (days % 146097 % 36524 % 1461 % 365) with hb9 | hb9
    · rw [if_neg (by omega : ¬((337:Int) ≤ days % 146097 % 36524 % 1461 % 365)), if_neg (by omega : ¬((306:Int) ≤ days % 146097 % 36524 % 1461 % 365)), if_neg (by omega : ¬((275:Int) ≤ days % 146097 % 36524 % 1461 % 365)), if_neg (by omega : ¬((245:Int) ≤ days % 146097 % 36524 % 1461 % 365)), if_neg (by omega : ¬((214:Int) ≤ days % 146097 % 36524 % 1461 % 365)), if_neg (by omega : ¬((184:Int) ≤ days % 146097 % 36524 % 1461 % 365)), if_neg (by omega : ¬((153:Int) ≤ days % 146097 % 36524 % 1461 % 365)), if_neg (by omega : ¬((122:Int) ≤ days % 146097 % 36524 % 1461 % 365)), if_neg (by omega : ¬((92:Int) ≤ days % 146097 % 36524 % 1461 % 365)), if_pos hb9] at hfe
      rw [hfe]
      simp only []
      split_ifs <;> omega
    rcases le_or_lt 31 (days % 146097 % 36524 % 1461 % 365) with hb10 | hb10
    · rw [if_neg (by omega : ¬((337:Int) ≤ days % 146097 % 36524 % 1461 % 365)), if_neg (by omega : ¬((306:Int) ≤ days % 146097 % 36524 % 1461 % 365)), if_neg (by omega : ¬((275:Int) ≤ days % 146097 % 36524 % 1461 % 365)), if_neg (by omega : ¬((245:Int) ≤ days % 146097 % 36524 % 1461 % 365)), if_neg (by omega : ¬((214:Int) ≤ days % 146097 % 36524 % 1461 % 365)), if_neg (by omega : ¬((184:Int) ≤ days % 146097 % 36524 % 1461 % 365)), if_neg (by omega : ¬((153:Int) ≤ days % 146097 % 36524 % 1461 % 365)), if_neg (by omega : ¬((122:Int) ≤ days % 146097 % 36524 % 1461 % 365)), if_neg (by omega : ¬((92:Int) ≤ days % 146097 % 36524 % 1461 % 365)), if_neg (by omega : ¬((61:Int) ≤ days % 146097 % 36524 % 1461 % 365)), if_pos hb10] at hfe
      rw [hfe]
      simp only []
      split_ifs <;> omega
    · rw [if_neg (by omega : ¬((337:Int) ≤ days % 146097 % 36524 % 1461 % 365)), if_neg (by omega : ¬((306:Int) ≤ days % 146097 % 36524 % 1461 % 365)), if_neg (by omega : ¬((275:Int) ≤ days % 146097 % 36524 % 1461 % 365)), if_neg (by omega : ¬((245:Int) ≤ days % 146097 % 36524 % 1461 % 365)), if_neg (by omega : ¬((214:Int) ≤ days % 146097 % 36524 % 1461 % 365)), if_neg (by omega : ¬((184:Int) ≤ days % 146097 % 36524 % 1461 % 365)), if_neg (by omega : ¬((153:Int) ≤ days % 146097 % 36524 % 1461 % 365)), if_neg (by omega : ¬((122:Int) ≤ days % 146097 % 36524 % 1461 % 365)), if_neg (by omega : ¬((92:Int) ≤ days % 146097 % 36524 % 1461 % 365)), if_neg (by omega : ¬((61:Int) ≤ days % 146097 % 36524 % 1461 % 365)), if_neg (by omega : ¬((31:Int) ≤ days % 146097 % 36524 % 1461 % 365))] at hfe
      rw [hfe]
      simp only []
      split_ifs <;> omega
  · split_ifs <;> omega


lemma leap_calc_char (y : Int) (m : Month) (d : Int) :
    (YMD.mk y m d).leap_year_calculations
      = ((y - 2000) % 400 % 100 / 4 + 97 * ((y - 2000) / 400)
           + 24 * ((y - 2000) % 400 / 100)
           - (if (y - 2000) % 400 = 0
                ∨ ((y - 2000) % 400 % 100 ≠ 0 ∧ (y - 2000) % 400 % 4 = 0)
              then 1 else 0),
         decide ((y - 2000) % 400 = 0
           ∨ ((y - 2000) % 400 % 100 ≠ 0 ∧ (y - 2000) % 400 % 4 = 0))) := by
  simp only [YMD.leap_year_calculations]
  have hsc := split_cycles_eq (y - 2000) 400 (by norm_num)
  have h1 : (split_cycles (y - 2000) 400).1 = (y - 2000) / 400 := by rw [hsc]
  have h2 : (split_cycles (y - 2000) 400).2 = (y - 2000) % 400 := by rw [hsc]
  rw [h1, h2]
  have hr : 0 ≤ (y - 2000) % 400 := Int.emod_nonneg _ (by norm_num)
  rw [Int.tmod_eq_emod hr (by norm_num : (0:Int) ≤ 100),
      Int.tmod_eq_emod hr (by norm_num : (0:Int) ≤ 4),
      Int.tdiv_eq_ediv hr (by norm_num : (0:Int) ≤ 100)]
  have e1 : (y - 2000) % 400 - (y - 2000) % 400 / 100 * 100 = (y - 2000) % 400 % 100 := by
    omega
  rw [e1]
  have hr1 : 0 ≤ (y - 2000) % 400 % 100 := Int.emod_nonneg _ (by norm_num)
  rw [Int.tdiv_eq_ediv hr1 (by norm_num : (0:Int) ≤ 4)]
  simp only [Prod.mk.injEq]
  constructor
  · by_cases hA : (y - 2000) % 400 = 0 <;>
      by_cases hB : (y - 2000) % 400 % 100 ≠ 0 <;>
      by_cases hC : (y - 2000) % 400 % 4 = 0 <;>
      simp [hA, hB, hC]
  · by_cases hA : (y - 2000) % 400 = 0 <;>
      by_cases hB : (y - 2000) % 400 % 100 ≠ 0 <;>
      by_cases hC : (y - 2000) % 400 % 4 = 0 <;>
      simp [hA, hB, hC]

lemma daysInYear_char (y : Int) :
    daysInYear y
      = if (y - 2000) % 400 = 0
          ∨ ((y - 2000) % 400 % 100 ≠ 0 ∧ (y - 2000) % 400 % 4 = 0)
        then 366 else 365 := by
  simp only [daysInYear, leap_calc_char]
  by_cases hp : (y - 2000) % 400 = 0
      ∨ ((y - 2000) % 400 % 100 ≠ 0 ∧ (y - 2000) % 400 % 4 = 0) <;>
    simp [hp]

lemma toDays_jan1 (y : Int) :
    (YMD.mk y .january 1).to_days_since_epoch
      = some ((y - 2000) * 365 + 10958
          + ((y - 2000) % 400 % 100 / 4 + 97 * ((y - 2000) / 400)
             + 24 * ((y - 2000) % 400 / 100)
             - (if (y - 2000) % 400 = 0
                  ∨ ((y - 2000) % 400 % 100 ≠ 0 ∧ (y - 2000) % 400 % 4 = 0)
                then 1 else 0))) := by
  simp only [YMD.to_days_since_epoch, leap_calc_char, YMD.is_valid,
    Month.days_in_month, Month.days_before_start, Month.toOne]
  norm_num

lemma ediv_emod_pair (a b q r : Int) (hb : 0 < b) (h : a = b * q + r)
    (h0 : 0 ≤ r) (h1 : r < b) : a / b = q ∧ a % b = r :=
  (Int.ediv_emod_unique hb).mpr ⟨by omega, h0, h1⟩

/-- Digit analysis of the (uncapped) cycle decomposition applied to the
day-count of day `yd` of a leap year `2000 + y0`: the computed year and
yearday agree with the inputs in every case, including 29 February
(`yd = 60`), where the cycle counts overshoot but year and yearday still
come out right. -/
lemma yd_digits_leap (y0 yd n : Int) (h1 : 1 ≤ yd) (h2 : yd ≤ 366)
    (hp : y0 % 400 = 0 ∨ (y0 % 400 % 100 ≠ 0 ∧ y0 % 400 % 4 = 0))
    (hn : n = 365*y0 + (y0 % 400 % 100 / 4 + 97*(y0/400) + 24*(y0 % 400 / 100) - 1)
      + yd - 60) :
    (2000 + 400 * (n / 146097) + 100 * (n % 146097 / 36524)
      + 4 * (n % 146097 % 36524 / 1461) + n % 146097 % 36524 % 1461 / 365
      + (if 306 ≤ n % 146097 % 36524 % 1461 % 365 then 1 else 0) = 2000 + y0) ∧
    (1 + (if 306 ≤ n % 146097 % 36524 % 1461 % 365
          then n % 146097 % 36524 % 1461 % 365 - 306
          else n % 146097 % 36524 % 1461 % 365
            + (if n % 146097 % 36524 % 1461 / 365 = 0
                 ∧ ¬(n % 146097 % 36524 / 1461 = 0 ∧ n % 146097 / 36524 ≠ 0)
               then 366 else 365) - 306) = yd) := by
  obtain ⟨K, r4, hy0, h400, h401⟩ : ∃ K r4, y0 = 400 * K + r4 ∧ 0 ≤ r4 ∧ r4 < 400 :=
    ⟨y0 / 400, y0 % 400, by omega, by omega, by omega⟩
  obtain ⟨A, u, hru, hu0, hu1⟩ : ∃ A u, r4 = 100 * A + u ∧ 0 ≤ u ∧ u < 100 :=
    ⟨r4 / 100, r4 % 100, by omega, by omega, by omega⟩
  obtain ⟨Q, S, huq, hS0, hS1⟩ : ∃ Q S, u = 4 * Q + S ∧ 0 ≤ S ∧ S < 4 :=
    ⟨u / 4, u % 4, by omega, by omega, by omega⟩
  simp only [show y0 % 400 % 100 / 4 = Q from by omega] at *
  simp only [show y0 % 400 % 100 = u from by omega] at *
  simp only [show y0 % 400 % 4 = S from by omega] at *
  simp only [show y0 % 400 / 100 = A from by omega] at *
  simp only [show y0 % 400 = r4 from by omega] at *
  simp only [show y0 / 400 = K from by omega] at *
  have hQ0 : 0 ≤ Q := by omega
  have hQ24 : Q ≤ 24 := by omega
  have hA0 : 0 ≤ A := by omega
  have hA3 : A ≤ 3 := by omega

  have hs : S = 0 := by omega
  rcases le_or_lt 61 yd with hL | hE
  · -- 1 March or later: every cycle count agrees with the year digits
    have hq1 : n = 146097 * (K) + (36524 * A + 1461 * Q + (yd - 61)) := by omega
    have hb1 : (0:Int) ≤ (36524 * A + 1461 * Q + (yd - 61)) := by omega
    have hc1 : (36524 * A + 1461 * Q + (yd - 61)) < ((146097:Int)) := by omega
    obtain ⟨hd1, hr1⟩ := ediv_emod_pair (n) 146097 (K) (36524 * A + 1461 * Q + (yd - 61))
      (by norm_num) hq1 hb1 hc1
    have hq2 : n % 146097 = 36524 * (A) + (1461 * Q + (yd - 61)) := by omega
    have hb2 : (0:Int) ≤ (1461 * Q + (yd - 61)) := by omega
    have hc2 : (1461 * Q + (yd - 61)) < ((36524:Int)) := by omega
    obtain ⟨hd2, hr2⟩ := ediv_emod_pair (n % 146097) 36524 (A) (1461 * Q + (yd - 61))
      (by norm_num) hq2 hb2 hc2
    have hq3 : n % 146097 % 36524 = 1461 * (Q) + (yd - 61) := by omega
    have hb3 : (0:Int) ≤ (yd - 61) := by omega
    have hc3 : (yd - 61) < ((1461:Int)) := by omega
    obtain ⟨hd3, hr3⟩ := ediv_emod_pair (n % 146097 % 36524) 1461 (Q) (yd - 61)
      (by norm_num) hq3 hb3 hc3
    have hq4 : n % 146097 % 36524 % 1461 = 365 * (0) + (yd - 61) := by omega
    have hb4 : (0:Int) ≤ (yd - 61) := by omega
    have hc4 : (yd - 61) < ((365:Int)) := by omega
    obtain ⟨hd4, hr4⟩ := ediv_emod_pair (n % 146097 % 36524 % 1461) 365 (0) (yd - 61)
      (by norm_num) hq4 hb4 hc4
    have hw : ¬(306 ≤ n % 146097 % 36524 % 1461 % 365) := by omega
    have hdty : n % 146097 % 36524 % 1461 / 365 = 0
        ∧ ¬(n % 146097 % 36524 / 1461 = 0 ∧ n % 146097 / 36524 ≠ 0) := by
      refine ⟨by omega, ?_⟩
      rintro ⟨hz, hnz⟩
      omega
    constructor
    · rw [if_neg hw]
      omega
    · rw [if_neg hw, if_pos hdty]
      omega
  · rcases le_or_lt 1 Q with hq | hq
    · rcases eq_or_lt_of_le (show yd ≤ 60 by omega) with hy60 | hy59
      · -- 29 February inside a century: the uncapped years count reaches 4
        have hq1 : n = 146097 * (K) + (36524 * A + 1461 * Q - 1) := by omega
        have hb1 : (0:Int) ≤ (36524 * A + 1461 * Q - 1) := by omega
        have hc1 : (36524 * A + 1461 * Q - 1) < ((146097:Int)) := by omega
        obtain ⟨hd1, hr1⟩ := ediv_emod_pair (n) 146097 (K) (36524 * A + 1461 * Q - 1)
          (by norm_num) hq1 hb1 hc1
        have hq2 : n % 146097 = 36524 * (A) + (1461 * Q - 1) := by omega
        have hb2 : (0:Int) ≤ (1461 * Q - 1) := by omega
        have hc2 : (1461 * Q - 1) < ((36524:Int)) := by omega
        obtain ⟨hd2, hr2⟩ := ediv_emod_pair (n % 146097) 36524 (A) (1461 * Q - 1)
          (by norm_num) hq2 hb2 hc2
        have hq3 : n % 146097 % 36524 = 1461 * (Q - 1) + (1460) := by omega
        have hb3 : (0:Int) ≤ (1460) := by omega
        have hc3 : (1460) < ((1461:Int)) := by omega
        obtain ⟨hd3, hr3⟩ := ediv_emod_pair (n % 146097 % 36524) 1461 (Q - 1) (1460)
          (by norm_num) hq3 hb3 hc3
        have hq4 : n % 146097 % 36524 % 1461 = 365 * (4) + (0) := by omega
        have hb4 : (0:Int) ≤ (0) := by omega
        have hc4 : (0) < ((365:Int)) := by omega
        obtain ⟨hd4, hr4⟩ := ediv_emod_pair (n % 146097 % 36524 % 1461) 365 (4) (0)
          (by norm_num) hq4 hb4 hc4
        have hw : ¬(306 ≤ n % 146097 % 36524 % 1461 % 365) := by omega
        have hdty : ¬(n % 146097 % 36524 % 1461 / 365 = 0
            ∧ ¬(n % 146097 % 36524 / 1461 = 0 ∧ n % 146097 / 36524 ≠ 0)) := by
          rintro ⟨hz, hc⟩
          refine hc ⟨?_, ?_⟩ <;> omega
        constructor
        · rw [if_neg hw]
          omega
        · rw [if_neg hw, if_neg hdty]
          omega
      · -- January/February of a leap year inside a century
        have hq1 : n = 146097 * (K) + (36524 * A + 1461 * (Q - 1) + (1400 + yd)) := by omega
        have hb1 : (0:Int) ≤ (36524 * A + 1461 * (Q - 1) + (1400 + yd)) := by omega
        have hc1 : (36524 * A + 1461 * (Q - 1) + (1400 + yd)) < ((146097:Int)) := by omega
        obtain ⟨hd1, hr1⟩ := ediv_emod_pair (n) 146097 (K) (36524 * A + 1461 * (Q - 1) + (1400 + yd))
          (by norm_num) hq1 hb1 hc1
        have hq2 : n % 146097 = 36524 * (A) + (1461 * (Q - 1) + (1400 + yd)) := by omega
        have hb2 : (0:Int) ≤ (1461 * (Q - 1) + (1400 + yd)) := by omega
        have hc2 : (1461 * (Q - 1) + (1400 + yd)) < ((36524:Int)) := by omega
        obtain ⟨hd2, hr2⟩ := ediv_emod_pair (n % 146097) 36524 (A) (1461 * (Q - 1) + (1400 + yd))
          (by norm_num) hq2 hb2 hc2
        have hq3 : n % 146097 % 36524 = 1461 * (Q - 1) + (1400 + yd) := by omega
        have hb3 : (0:Int) ≤ (1400 + yd) := by omega
        have hc3 : (1400 + yd) < ((1461:Int)) := by omega
        obtain ⟨hd3, hr3⟩ := ediv_emod_pair (n % 146097 % 36524) 1461 (Q - 1) (1400 + yd)
          (by norm_num) hq3 hb3 hc3
        have hq4 : n % 146097 % 36524 % 1461 = 365 * (3) + (305 + yd) := by omega
        have hb4 : (0:Int) ≤ (305 + yd) := by omega
        have hc4 : (305 + yd) < ((365:Int)) := by omega
        obtain ⟨hd4, hr4⟩ := ediv_emod_pair (n % 146097 % 36524 % 1461) 365 (3) (305 + yd)
          (by norm_num) hq4 hb4 hc4
        have hw : 306 ≤ n % 146097 % 36524 % 1461 % 365 := by omega
        constructor
        · rw [if_pos hw]
          omega
        · rw [if_pos hw]
          omega
    · -- the whole relative-year digit is 0 (a year divisible by 400)
      have ha : r4 = 0 := by omega
      rcases eq_or_lt_of_le (show yd ≤ 60 by omega) with hy60 | hy59
      · -- 29 February of a year divisible by 400: borrow a 400-year
        -- cycle; the uncapped 100-year count then reaches 4
        have hq1 : n = 146097 * (K - 1) + (146096) := by omega
        have hb1 : (0:Int) ≤ (146096) := by omega
        have hc1 : (146096) < ((146097:Int)) := by omega
        obtain ⟨hd1, hr1⟩ := ediv_emod_pair (n) 146097 (K - 1) (146096)
          (by norm_num) hq1 hb1 hc1
        have hq2 : n % 146097 = 36524 * (4) + (0) := by omega
        have hb2 : (0:Int) ≤ (0) := by omega
        have hc2 : (0) < ((36524:Int)) := by omega
        obtain ⟨hd2, hr2⟩ := ediv_emod_pair (n % 146097) 36524 (4) (0)
          (by norm_num) hq2 hb2 hc2
        have hq3 : n % 146097 % 36524 = 1461 * (0) + (0) := by omega
        have hb3 : (0:Int) ≤ (0) := by omega
        have hc3 : (0) < ((1461:Int)) := by omega
        obtain ⟨hd3, hr3⟩ := ediv_emod_pair (n % 146097 % 36524) 1461 (0) (0)
          (by norm_num) hq3 hb3 hc3
        have hq4 : n % 146097 % 36524 % 1461 = 365 * (0) + (0) := by omega
        have hb4 : (0:Int) ≤ (0) := by omega
        have hc4 : (0) < ((365:Int)) := by omega
        obtain ⟨hd4, hr4⟩ := ediv_emod_pair (n % 146097 % 36524 % 1461) 365 (0) (0)
          (by norm_num) hq4 hb4 hc4
        have hw : ¬(306 ≤ n % 146097 % 36524 % 1461 % 365) := by omega
        have hdty : ¬(n % 146097 % 36524 % 1461 / 365 = 0
            ∧ ¬(n % 146097 % 36524 / 1461 = 0 ∧ n % 146097 / 36524 ≠ 0)) := by
          rintro ⟨hz, hc⟩
          refine hc ⟨?_, ?_⟩ <;> omega
        constructor
        · rw [if_neg hw]
          omega
        · rw [if_neg hw, if_neg hdty]
          omega
      · -- January/February of a year divisible by 400: borrow a
        -- 400-year cycle
        have hq1 : n = 146097 * (K - 1) + (146036 + yd) := by omega
        have hb1 : (0:Int) ≤ (146036 + yd) := by omega
        have hc1 : (146036 + yd) < ((146097:Int)) := by omega
        obtain ⟨hd1, hr1⟩ := ediv_emod_pair (n) 146097 (K - 1) (146036 + yd)
          (by norm_num) hq1 hb1 hc1
        have hq2 : n % 146097 = 36524 * (3) + (36464 + yd) := by omega
        have hb2 : (0:Int) ≤ (36464 + yd) := by omega
        have hc2 : (36464 + yd) < ((36524:Int)) := by omega
        obtain ⟨hd2, hr2⟩ := ediv_emod_pair (n % 146097) 36524 (3) (36464 + yd)
          (by norm_num) hq2 hb2 hc2
        have hq3 : n % 146097 % 36524 = 1461 * (24) + (1400 + yd) := by omega
        have hb3 : (0:Int) ≤ (1400 + yd) := by omega
        have hc3 : (1400 + yd) < ((1461:Int)) := by omega
        obtain ⟨hd3, hr3⟩ := ediv_emod_pair (n % 146097 % 36524) 1461 (24) (1400 + yd)
          (by norm_num) hq3 hb3 hc3
        have hq4 : n % 146097 % 36524 % 1461 = 365 * (3) + (305 + yd) := by omega
        have hb4 : (0:Int) ≤ (305 + yd) := by omega
        have hc4 : (305 + yd) < ((365:Int)) := by omega
        obtain ⟨hd4, hr4⟩ := ediv_emod_pair (n % 146097 % 36524 % 1461) 365 (3) (305 + yd)
          (by norm_num) hq4 hb4 hc4
        have hw : 306 ≤ n % 146097 % 36524 % 1461 % 365 := by omega
        constructor
        · rw [if_pos hw]
          omega
        · rw [if_pos hw]
          omega

/-- Digit analysis of the (uncapped) cycle decomposition applied to the
day-count of day `yd` of a non-leap year `2000 + y0`. -/
lemma yd_digits_nonleap (y0 yd n : Int) (h1 : 1 ≤ yd) (h2 : yd ≤ 365)
    (hp : ¬(y0 % 400 = 0 ∨ (y0 % 400 % 100 ≠ 0 ∧ y0 % 400 % 4 = 0)))
    (hn : n = 365*y0 + (y0 % 400 % 100 / 4 + 97*(y0/400) + 24*(y0 % 400 / 100) - 0)
      + yd - 60) :
    (2000 + 400 * (n / 146097) + 100 * (n % 146097 / 36524)
      + 4 * (n % 146097 % 36524 / 1461) + n % 146097 % 36524 % 1461 / 365
      + (if 306 ≤ n % 146097 % 36524 % 1461 % 365 then 1 else 0) = 2000 + y0) ∧
    (1 + (if 306 ≤ n % 146097 % 36524 % 1461 % 365
          then n % 146097 % 36524 % 1461 % 365 - 306
          else n % 146097 % 36524 % 1461 % 365
            + (if n % 146097 % 36524 % 1461 / 365 = 0
                 ∧ ¬(n % 146097 % 36524 / 1461 = 0 ∧ n % 146097 / 36524 ≠ 0)
               then 366 else 365) - 306) = yd) := by
  obtain ⟨K, r4, hy0, h400, h401⟩ : ∃ K r4, y0 = 400 * K + r4 ∧ 0 ≤ r4 ∧ r4 < 400 :=
    ⟨y0 / 400, y0 % 400, by omega, by omega, by omega⟩
  obtain ⟨A, u, hru, hu0, hu1⟩ : ∃ A u, r4 = 100 * A + u ∧ 0 ≤ u ∧ u < 100 :=
    ⟨r4 / 100, r4 % 100, by omega, by omega, by omega⟩
  obtain ⟨Q, S, huq, hS0, hS1⟩ : ∃ Q S, u = 4 * Q + S ∧ 0 ≤ S ∧ S < 4 :=
    ⟨u / 4, u % 4, by omega, by omega, by omega⟩
  simp only [show y0 % 400 % 100 / 4 = Q from by omega] at *
  simp only [show y0 % 400 % 100 = u from by omega] at *
  simp only [show y0 % 400 % 4 = S from by omega] at *
  simp only [show y0 % 400 / 100 = A from by omega] at *
  simp only [show y0 % 400 = r4 from by omega] at *
  simp only [show y0 / 400 = K from by omega] at *
  have hQ0 : 0 ≤ Q := by omega
  have hQ24 : Q ≤ 24 := by omega
  have hA0 : 0 ≤ A := by omega
  have hA3 : A ≤ 3 := by omega

  rcases le_or_lt 60 yd with hL | hE
  · -- 1 March or later: every cycle count agrees with the year digits
    have hq1 : n = 146097 * (K) + (36524 * A + 1461 * Q + 365 * S + (yd - 60)) := by omega
    have hb1 : (0:Int) ≤ (36524 * A + 1461 * Q + 365 * S + (yd - 60)) := by omega
    have hc1 : (36524 * A + 1461 * Q + 365 * S + (yd - 60)) < ((146097:Int)) := by omega
    obtain ⟨hd1, hr1⟩ := ediv_emod_pair (n) 146097 (K) (36524 * A + 1461 * Q + 365 * S + (yd - 60))
      (by norm_num) hq1 hb1 hc1
    have hq2 : n % 146097 = 36524 * (A) + (1461 * Q + 365 * S + (yd - 60)) := by omega
    have hb2 : (0:Int) ≤ (1461 * Q + 365 * S + (yd - 60)) := by omega
    have hc2 : (1461 * Q + 365 * S + (yd - 60)) < ((36524:Int)) := by omega
    obtain ⟨hd2, hr2⟩ := ediv_emod_pair (n % 146097) 36524 (A) (1461 * Q + 365 * S + (yd - 60))
      (by norm_num) hq2 hb2 hc2
    have hq3 : n % 146097 % 36524 = 1461 * (Q) + (365 * S + (yd - 60)) := by omega
    have hb3 : (0:Int) ≤ (365 * S + (yd - 60)) := by omega
    have hc3 : (365 * S + (yd - 60)) < ((1461:Int)) := by omega
    obtain ⟨hd3, hr3⟩ := ediv_emod_pair (n % 146097 % 36524) 1461 (Q) (365 * S + (yd - 60))
      (by norm_num) hq3 hb3 hc3
    have hq4 : n % 146097 % 36524 % 1461 = 365 * (S) + (yd - 60) := by omega
    have hb4 : (0:Int) ≤ (yd - 60) := by omega
    have hc4 : (yd - 60) < ((365:Int)) := by omega
    obtain ⟨hd4, hr4⟩ := ediv_emod_pair (n % 146097 % 36524 % 1461) 365 (S) (yd - 60)
      (by norm_num) hq4 hb4 hc4
    have hw : ¬(306 ≤ n % 146097 % 36524 % 1461 % 365) := by omega
    have hdty : ¬(n % 146097 % 36524 % 1461 / 365 = 0
        ∧ ¬(n % 146097 % 36524 / 1461 = 0 ∧ n % 146097 / 36524 ≠ 0)) := by
      rintro ⟨hz, hc⟩
      refine hc ⟨?_, ?_⟩ <;> omega
    constructor
    · rw [if_neg hw]
      omega
    · rw [if_neg hw, if_neg hdty]
      omega
  · rcases le_or_lt 1 S with hsge | hs0
    · -- January/February of an ordinary year: borrow one year
      have hq1 : n = 146097 * (K) + (36524 * A + 1461 * Q + 365 * (S - 1) + (305 + yd)) := by omega
      have hb1 : (0:Int) ≤ (36524 * A + 1461 * Q + 365 * (S - 1) + (305 + yd)) := by omega
      have hc1 : (36524 * A + 1461 * Q + 365 * (S - 1) + (305 + yd)) < ((146097:Int)) := by omega
      obtain ⟨hd1, hr1⟩ := ediv_emod_pair (n) 146097 (K) (36524 * A + 1461 * Q + 365 * (S - 1) + (305 + yd))
        (by norm_num) hq1 hb1 hc1
      have hq2 : n % 146097 = 36524 * (A) + (1461 * Q + 365 * (S - 1) + (305 + yd)) := by omega
      have hb2 : (0:Int) ≤ (1461 * Q + 365 * (S - 1) + (305 + yd)) := by omega
      have hc2 : (1461 * Q + 365 * (S - 1) + (305 + yd)) < ((36524:Int)) := by omega
      obtain ⟨hd2, hr2⟩ := ediv_emod_pair (n % 146097) 36524 (A) (1461 * Q + 365 * (S - 1) + (305 + yd))
        (by norm_num) hq2 hb2 hc2
      have hq3 : n % 146097 % 36524 = 1461 * (Q) + (365 * (S - 1) + (305 + yd)) := by omega
      have hb3 : (0:Int) ≤ (365 * (S - 1) + (305 + yd)) := by omega
      have hc3 : (365 * (S - 1) + (305 + yd)) < ((1461:Int)) := by omega
      obtain ⟨hd3, hr3⟩ := ediv_emod_pair (n % 146097 % 36524) 1461 (Q) (365 * (S - 1) + (305 + yd))
        (by norm_num) hq3 hb3 hc3
      have hq4 : n % 146097 % 36524 % 1461 = 365 * (S - 1) + (305 + yd) := by omega
      have hb4 : (0:Int) ≤ (305 + yd) := by omega
      have hc4 : (305 + yd) < ((365:Int)) := by omega
      obtain ⟨hd4, hr4⟩ := ediv_emod_pair (n % 146097 % 36524 % 1461) 365 (S - 1) (305 + yd)
        (by norm_num) hq4 hb4 hc4
      have hw : 306 ≤ n % 146097 % 36524 % 1461 % 365 := by omega
      constructor
      · rw [if_pos hw]
        omega
      · rw [if_pos hw]
        omega
    · -- January/February of a century year that is not a leap year:
      -- borrow one 100-year cycle
      have ha : 1 ≤ A := by omega
      have hq1 : n = 146097 * (K) + (36524 * (A - 1) + (36464 + yd)) := by omega
      have hb1 : (0:Int) ≤ (36524 * (A - 1) + (36464 + yd)) := by omega
      have hc1 : (36524 * (A - 1) + (36464 + yd)) < ((146097:Int)) := by omega
      obtain ⟨hd1, hr1⟩ := ediv_emod_pair (n) 146097 (K) (36524 * (A - 1) + (36464 + yd))
        (by norm_num) hq1 hb1 hc1
      have hq2 : n % 146097 = 36524 * (A - 1) + (36464 + yd) := by omega
      have hb2 : (0:Int) ≤ (36464 + yd) := by omega
      have hc2 : (36464 + yd) < ((36524:Int)) := by omega
      obtain ⟨hd2, hr2⟩ := ediv_emod_pair (n % 146097) 36524 (A - 1) (36464 + yd)
        (by norm_num) hq2 hb2 hc2
      have hq3 : n % 146097 % 36524 = 1461 * (24) + (1400 + yd) := by omega
      have hb3 : (0:Int) ≤ (1400 + yd) := by omega
      have hc3 : (1400 + yd) < ((1461:Int)) := by omega
      obtain ⟨hd3, hr3⟩ := ediv_emod_pair (n % 146097 % 36524) 1461 (24) (1400 + yd)
        (by norm_num) hq3 hb3 hc3
      have hq4 : n % 146097 % 36524 % 1461 = 365 * (3) + (305 + yd) := by omega
      have hb4 : (0:Int) ≤ (305 + yd) := by omega
      have hc4 : (305 + yd) < ((365:Int)) := by omega
      obtain ⟨hd4, hr4⟩ := ediv_emod_pair (n % 146097 % 36524 % 1461) 365 (3) (305 + yd)
        (by norm_num) hq4 hb4 hc4
      have hw : 306 ≤ n % 146097 % 36524 % 1461 % 365 := by omega
      constructor
      · rw [if_pos hw]
        omega
      · rw [if_pos hw]
        omega

/-- Counterexample to C9 as stated: `LocalDate::yd` does not reject
yearday values outside `1 ..= (days in year)`.  2015 has 365 days, yet
`yd(2015, 366)` is accepted and silently wraps to 1 January 2016, and
`yd(2015, 0)` is accepted and wraps back to 31 December 2014. -/
theorem yd_silently_wraps :
    LocalDate.yd 2015 366
      = some { ymd := { year := 2016, month := Month.january, day := 1 },
               yearday := 1, weekday := Weekday.friday }
  ∧ LocalDate.yd 2015 0
      = some { ymd := { year := 2014, month := Month.december, day := 31 },
               yearday := 365, weekday := Weekday.wednesday } := by
  decide

/-- **C9 (amended)**: `LocalDate::yd(year, yearday)` returns `Ok` exactly
when `0 ≤ yearday < 367` — the code's `is_within(0..367)` check, which,
contrary to the claim, also admits yearday 0 and (for 365-day years)
yearday 366, silently wrapping those into an adjacent year.  For every
yearday in the year's true range `1 ..= daysInYear year`, however, the
returned date's `year` and `yearday` accessors do equal the given year
and yearday, for every year. -/
theorem yd_domain_and_accessors (year yearday : Int) :
    ((LocalDate.yd year yearday).isSome = true ↔ (0 ≤ yearday ∧ yearday < 367))
  ∧ (1 ≤ yearday → yearday ≤ daysInYear year →
      ∀ dd : LocalDate, LocalDate.yd year yearday = some dd →
        dd.ymd.year = year ∧ dd.yearday = yearday) := by
  constructor
  · simp only [LocalDate.yd, is_within]
    split_ifs with h
    · rw [toDays_jan1]
      simp only [Bool.and_eq_true, decide_eq_true_eq] at h
      simp only [Option.map_some', Option.isSome_some]
      exact ⟨fun _ => h, fun _ => trivial⟩
    · simp only [Bool.and_eq_true, decide_eq_true_eq] at h
      simp only [Option.isSome_none]
      exact ⟨fun hfalse => Bool.noConfusion hfalse, fun hc => absurd hc h⟩
  · intro h1 h2 dd hdd
    rw [daysInYear_char] at h2
    have h2b : yearday ≤ 366 := by split_ifs at h2 <;> omega
    have hcond : is_within yearday 0 367 = true := by
      simp only [is_within, Bool.and_eq_true, decide_eq_true_eq]
      omega
    simp only [LocalDate.yd] at hdd
    rw [if_pos hcond, toDays_jan1] at hdd
    simp only [Option.map_some', Option.some.injEq] at hdd
    subst hdd
    by_cases hp : (year - 2000) % 400 = 0
        ∨ ((year - 2000) % 400 % 100 ≠ 0 ∧ (year - 2000) % 400 % 4 = 0)
    · rw [if_pos hp] at h2 ⊢
      rw [show (year - 2000) * 365 + 10958
            + ((year - 2000) % 400 % 100 / 4 + 97 * ((year - 2000) / 400)
               + 24 * ((year - 2000) % 400 / 100) - 1)
            + yearday - 1 - EPOCH_DIFFERENCE
          = 365 * (year - 2000)
            + ((year - 2000) % 400 % 100 / 4 + 97 * ((year - 2000) / 400)
               + 24 * ((year - 2000) % 400 / 100) - 1)
            + yearday - 60
          from by simp only [EPOCH_DIFFERENCE]; omega]
      obtain ⟨hz1, hz2⟩ := yd_digits_leap (year - 2000) yearday
        (365 * (year - 2000)
          + ((year - 2000) % 400 % 100 / 4 + 97 * ((year - 2000) / 400)
             + 24 * ((year - 2000) % 400 / 100) - 1)
          + yearday - 60) h1 h2 hp rfl
      obtain ⟨hy, hyd⟩ := from_days_char (365 * (year - 2000)
          + ((year - 2000) % 400 % 100 / 4 + 97 * ((year - 2000) / 400)
             + 24 * ((year - 2000) % 400 / 100) - 1)
          + yearday - 60)
      refine ⟨?_, ?_⟩
      · rw [hy, hz1]; omega
      · rw [hyd]; exact hz2
    · rw [if_neg hp] at h2 ⊢
      rw [show (year - 2000) * 365 + 10958
            + ((year - 2000) % 400 % 100 / 4 + 97 * ((year - 2000) / 400)
               + 24 * ((year - 2000) % 400 / 100) - 0)
            + yearday - 1 - EPOCH_DIFFERENCE
          = 365 * (year - 2000)
            + ((year - 2000) % 400 % 100 / 4 + 97 * ((year - 2000) / 400)
               + 24 * ((year - 2000) % 400 / 100) - 0)
            + yearday - 60
          from by simp only [EPOCH_DIFFERENCE]; omega]
      obtain ⟨hz1, hz2⟩ := yd_digits_nonleap (year - 2000) yearday
        (365 * (year - 2000)
          + ((year - 2000) % 400 % 100 / 4 + 97 * ((year - 2000) / 400)
             + 24 * ((year - 2000) % 400 / 100) - 0)
          + yearday - 60) h1 h2 hp rfl
      obtain ⟨hy, hyd⟩ := from_days_char (365 * (year - 2000)
          + ((year - 2000) % 400 % 100 / 4 + 97 * ((year - 2000) / 400)
             + 24 * ((year - 2000) % 400 / 100) - 0)
          + yearday - 60)
      refine ⟨?_, ?_⟩
      · rw [hy, hz1]; omega
      · rw [hyd]; exact hz2

/-- Witness for C9 (amended) at year 2015, yearday 60: the constructor
succeeds, 60 is within 2015's 365 days, and the resulting date (1 March
2015) reports year 2015 and yearday 60. -/
theorem yd_domain_and_accessors_witness :
    ((LocalDate.yd 2015 60).isSome = true)
  ∧ (1 ≤ (60:Int) ∧ (60:Int) ≤ daysInYear 2015)
  ∧ ({ ymd := { year := 2015, month := Month.march, day := 1 },
       yearday := 60, weekday := Weekday.sunday } : LocalDate).ymd.year = 2015
  ∧ ({ ymd := { year := 2015, month := Month.march, day := 1 },
       yearday := 60, weekday := Weekday.sunday } : LocalDate).yearday = 60 :=
  ⟨((yd_domain_and_accessors 2015 60).1).mpr (by decide),
   ⟨by decide, by decide⟩,
   ((yd_domain_and_accessors 2015 60).2 (by decide) (by decide)
      { ymd := { year := 2015, month := Month.march, day := 1 },
        yearday := 60, weekday := Weekday.sunday } (by decide)).1,
   ((yd_domain_and_accessors 2015 60).2 (by decide) (by decide)
      { ymd := { year := 2015, month := Month.march, day := 1 },
        yearday := 60, weekday := Weekday.sunday } (by decide)).2⟩
